import Mathlib

/-!
Shallow embedding of `homework.py`, a fitness-tracker module with an
`InfoMessage` rendering record, a `Training` class hierarchy
(`Running`, `SportsWalking`, `Swimming`) and a `read_package` factory.

Numbers are embedded as exact rationals (`ℚ`); Python's float floor
division `//` becomes `⌊· / ·⌋`; Python's `.3f` fixed-point formatting
becomes `fmt3` (round half to even at three decimals); fallible
computations (division by zero, unknown workout type, argument-count
mismatch on construction) are embedded as `Except` values.
-/

namespace HwPythonOop

/-- Decimal digit list of a natural number, most significant first;
`fuel` bounds the recursion depth. -/
def natReprAux : Nat → Nat → List Char
  | 0, _ => []
  | fuel + 1, n =>
    if n < 10 then [Nat.digitChar n]
    else natReprAux fuel (n / 10) ++ [Nat.digitChar (n % 10)]

/-- Decimal rendering of a natural number, without leading zeros. -/
def natRepr (n : Nat) : String := String.mk (natReprAux (n + 1) n)

/-- Three decimal digits of `m % 1000`, zero padded. -/
def pad3 (m : Nat) : String :=
  String.mk [Nat.digitChar (m / 100 % 10), Nat.digitChar (m / 10 % 10),
    Nat.digitChar (m % 10)]

/-- Nearest integer to `x`, ties to the even integer (the rounding rule
of fixed-point formatting). -/
def roundHalfEven (x : ℚ) : ℤ :=
  if x - ⌊x⌋ < 1/2 then ⌊x⌋
  else if 1/2 < x - ⌊x⌋ then ⌊x⌋ + 1
  else if ⌊x⌋ % 2 = 0 then ⌊x⌋ else ⌊x⌋ + 1

/-- Digits of `|n|/1000` followed by a point and the three digits of the
thousandths part. -/
def fmt3Core (n : ℤ) : String :=
  natRepr (n.natAbs / 1000) ++ "." ++ pad3 (n.natAbs % 1000)

/-- Embedding of Python's `format(q, '.3f')` on exact rationals: fixed
point, exactly three decimal places, sign taken from `q`. -/
def fmt3 (q : ℚ) : String :=
  if q < 0 then "-" ++ fmt3Core (roundHalfEven (q * 1000))
  else fmt3Core (roundHalfEven (q * 1000))

/-- Embedding of the dataclass `InfoMessage` (homework.py lines 10-28). -/
structure InfoMessage where
  training_type : String
  duration : ℚ
  distance : ℚ
  speed : ℚ
  calories : ℚ

/-- Embedding of `InfoMessage.get_message`: `MESSAGE_TEXT.format(...)`
with the four numeric fields rendered through `.3f` formatting. -/
def InfoMessage.get_message (m : InfoMessage) : String :=
  "Тип тренировки: " ++ m.training_type ++
  "; Длительность: " ++ fmt3 m.duration ++
  " ч.; Дистанция: " ++ fmt3 m.distance ++
  " км; Ср. скорость: " ++ fmt3 m.speed ++
  " км/ч; Потрачено ккал: " ++ fmt3 m.calories ++ "."

namespace Training

/-- Class attribute `Training.LEN_STEP` (homework.py line 34). -/
def LEN_STEP : ℚ := 0.65

/-- Class attribute `Training.M_IN_KM` (homework.py line 35). -/
def M_IN_KM : ℚ := 1000

/-- Class attribute `Training.COEFF_MIN_TO_HOURS` (homework.py line 36). -/
def COEFF_MIN_TO_HOURS : ℚ := 60

end Training

/-- Fields of `Running(Training)`: `action`, `duration` (hours),
`weight` (kg), set by the inherited `Training.__init__`. -/
structure Running where
  action : ℚ
  duration : ℚ
  weight : ℚ

namespace Running

/-- `LEN_STEP` is inherited from `Training`. -/
def LEN_STEP : ℚ := Training.LEN_STEP

/-- Class attribute `Running.SPEED_MULTIPLIER` (line 77). -/
def SPEED_MULTIPLIER : ℚ := 18

/-- Class attribute `Running.SPEED_SUBTRACTOR` (line 78). -/
def SPEED_SUBTRACTOR : ℚ := 20

/-- Inherited `Training.get_distance` (lines 47-51). -/
def get_distance (r : Running) : ℚ :=
  r.action * LEN_STEP / Training.M_IN_KM

/-- Inherited `Training.get_mean_speed` (lines 53-55). -/
def get_mean_speed (r : Running) : ℚ :=
  r.get_distance / r.duration

/-- `Running.get_spent_calories` (lines 80-88). -/
def get_spent_calories (r : Running) : ℚ :=
  (SPEED_MULTIPLIER * r.get_mean_speed - SPEED_SUBTRACTOR)
    * r.weight / Training.M_IN_KM * r.duration * Training.COEFF_MIN_TO_HOURS

/-- Inherited `Training.show_training_info` (lines 65-71);
`self.__class__.__name__` resolves to `"Running"`. -/
def show_training_info (r : Running) : InfoMessage :=
  ⟨"Running", r.duration, r.get_distance, r.get_mean_speed, r.get_spent_calories⟩

end Running

/-- Fields of `SportsWalking(Training)`: the inherited three plus
`height` (cm), set by `SportsWalking.__init__` (lines 97-104). -/
structure SportsWalking where
  action : ℚ
  duration : ℚ
  weight : ℚ
  height : ℚ

namespace SportsWalking

/-- `LEN_STEP` is inherited from `Training`. -/
def LEN_STEP : ℚ := Training.LEN_STEP

/-- Class attribute `SportsWalking.WEIGHT_COEFFICIENT` (line 94). -/
def WEIGHT_COEFFICIENT : ℚ := 0.035

/-- Class attribute `SportsWalking.SPEED_WEIGHT_COEFFICIENT` (line 95). -/
def SPEED_WEIGHT_COEFFICIENT : ℚ := 0.029

/-- Inherited `Training.get_distance` (lines 47-51). -/
def get_distance (w : SportsWalking) : ℚ :=
  w.action * LEN_STEP / Training.M_IN_KM

/-- Inherited `Training.get_mean_speed` (lines 53-55). -/
def get_mean_speed (w : SportsWalking) : ℚ :=
  w.get_distance / w.duration

/-- `SportsWalking.get_spent_calories` (lines 106-113); Python's float
floor division `//` is `⌊· / ·⌋` cast back to `ℚ`. -/
def get_spent_calories (w : SportsWalking) : ℚ :=
  (WEIGHT_COEFFICIENT * w.weight
    + ((⌊w.get_mean_speed ^ 2 / w.height⌋ : ℤ) : ℚ)
      * SPEED_WEIGHT_COEFFICIENT * w.weight)
    * w.duration * Training.COEFF_MIN_TO_HOURS

/-- Inherited `Training.show_training_info` (lines 65-71). -/
def show_training_info (w : SportsWalking) : InfoMessage :=
  ⟨"SportsWalking", w.duration, w.get_distance, w.get_mean_speed, w.get_spent_calories⟩

end SportsWalking

/-- Fields of `Swimming(Training)`: the inherited three plus
`length_pool` (m) and `count_pool`, set by `Swimming.__init__`
(lines 123-132). -/
structure Swimming where
  action : ℚ
  duration : ℚ
  weight : ℚ
  length_pool : ℚ
  count_pool : ℚ

namespace Swimming

/-- Class attribute `Swimming.LEN_STEP` (line 119), overriding the base. -/
def LEN_STEP : ℚ := 1.38

/-- Class attribute `Swimming.SPEED_ADD_COEFFICIENT` (line 120). -/
def SPEED_ADD_COEFFICIENT : ℚ := 1.1

/-- Class attribute `Swimming.SPEED_MULTIPLIER` (line 121). -/
def SPEED_MULTIPLIER : ℚ := 2

/-- Inherited `Training.get_distance` (lines 47-51), resolving
`self.LEN_STEP` to the overriding `Swimming.LEN_STEP`. -/
def get_distance (s : Swimming) : ℚ :=
  s.action * LEN_STEP / Training.M_IN_KM

/-- `Swimming.get_mean_speed` (lines 134-139), overriding the base. -/
def get_mean_speed (s : Swimming) : ℚ :=
  s.length_pool * s.count_pool / Training.M_IN_KM / s.duration

/-- `Swimming.get_spent_calories` (lines 141-145). -/
def get_spent_calories (s : Swimming) : ℚ :=
  (s.get_mean_speed + SPEED_ADD_COEFFICIENT) * SPEED_MULTIPLIER * s.weight

/-- Inherited `Training.show_training_info` (lines 65-71). -/
def show_training_info (s : Swimming) : InfoMessage :=
  ⟨"Swimming", s.duration, s.get_distance, s.get_mean_speed, s.get_spent_calories⟩

end Swimming

/-- A string of the shape `a ++ "." ++ b` with `b` exactly three decimal
digits: the output format of fixed-point rendering with three decimal
places. -/
def threeDecimalFixed (s : String) : Prop :=
  ∃ a b, s = a ++ "." ++ b ∧ b.length = 3 ∧ ∀ c ∈ b.data, c.isDigit = true

/-- Result of the factory: one of the three concrete training classes. -/
inductive TrainingRecord where
  | swimming : Swimming → TrainingRecord
  | running : Running → TrainingRecord
  | walking : SportsWalking → TrainingRecord

/-- Polymorphic `get_distance` on a factory result. -/
def TrainingRecord.get_distance : TrainingRecord → ℚ
  | .swimming s => s.get_distance
  | .running r => r.get_distance
  | .walking w => w.get_distance

/-- Polymorphic `get_mean_speed` on a factory result. -/
def TrainingRecord.get_mean_speed : TrainingRecord → ℚ
  | .swimming s => s.get_mean_speed
  | .running r => r.get_mean_speed
  | .walking w => w.get_mean_speed

/-- Polymorphic `get_spent_calories` on a factory result. -/
def TrainingRecord.get_spent_calories : TrainingRecord → ℚ
  | .swimming s => s.get_spent_calories
  | .running r => r.get_spent_calories
  | .walking w => w.get_spent_calories

/-- Errors that `read_package` and construction can raise: the
`ValueError` of lines 162-163 and the `TypeError` Python raises when
`TRAINING_TYPES[workout_type](*data)` unpacks a list whose length does
not match the `__init__` arity (expected and received counts of values
in `data`). -/
inductive ReadError where
  | unknownType : String → ReadError
  | arityError : Nat → Nat → ReadError
deriving DecidableEq

/-- The literal `ValueError` message of lines 162-163. -/
def ERROR_MESSAGE : String :=
  "Запрашиваемый тип тренировки отсутствует в БД фитнесс-трекера"

/-- Keys of the `TRAINING_TYPES` dict (lines 152-156). -/
def TRAINING_TYPES : List String := ["SWM", "RUN", "WLK"]

/-- Calling `Swimming(*data)`: succeeds exactly on five values
(`__init__` arity, lines 123-129). -/
def swimmingOfData : List ℚ → Except ReadError TrainingRecord
  | [action, duration, weight, length_pool, count_pool] =>
    .ok (.swimming ⟨action, duration, weight, length_pool, count_pool⟩)
  | data => .error (.arityError 5 data.length)

/-- Calling `Running(*data)`: succeeds exactly on three values
(inherited `Training.__init__` arity, lines 38-45). -/
def runningOfData : List ℚ → Except ReadError TrainingRecord
  | [action, duration, weight] =>
    .ok (.running ⟨action, duration, weight⟩)
  | data => .error (.arityError 3 data.length)

/-- Calling `SportsWalking(*data)`: succeeds exactly on four values
(`__init__` arity, lines 97-102). -/
def walkingOfData : List ℚ → Except ReadError TrainingRecord
  | [action, duration, weight, height] =>
    .ok (.walking ⟨action, duration, weight, height⟩)
  | data => .error (.arityError 4 data.length)

/-- Embedding of `read_package` (lines 159-164): the membership guard
raising `ValueError` with the fixed message, then the dict dispatch
`TRAINING_TYPES[workout_type](*data)`. -/
def read_package (workout_type : String) (data : List ℚ) :
    Except ReadError TrainingRecord :=
  if workout_type ∉ TRAINING_TYPES then .error (.unknownType ERROR_MESSAGE)
  else if workout_type = "SWM" then swimmingOfData data
  else if workout_type = "RUN" then runningOfData data
  else walkingOfData data

/-- Checked division: Python `/` raises `ZeroDivisionError` on a zero
divisor, otherwise returns the exact quotient. -/
def cdiv (a b : ℚ) : Except String ℚ :=
  if b = 0 then .error "ZeroDivisionError" else .ok (a / b)

/-- Checked floor division: Python `//` raises `ZeroDivisionError` on a
zero divisor, otherwise returns the floored quotient. -/
def cfloordiv (a b : ℚ) : Except String ℚ :=
  if b = 0 then .error "ZeroDivisionError" else .ok ((⌊a / b⌋ : ℤ) : ℚ)

namespace Running

/-- `Training.get_distance` with every Python division checked. -/
def get_distanceE (r : Running) : Except String ℚ :=
  cdiv (r.action * LEN_STEP) Training.M_IN_KM

/-- `Training.get_mean_speed` with every Python division checked. -/
def get_mean_speedE (r : Running) : Except String ℚ := do
  let d ← r.get_distanceE
  cdiv d r.duration

/-- `Running.get_spent_calories` with every Python division checked. -/
def get_spent_caloriesE (r : Running) : Except String ℚ := do
  let v ← r.get_mean_speedE
  let t ← cdiv ((SPEED_MULTIPLIER * v - SPEED_SUBTRACTOR) * r.weight)
    Training.M_IN_KM
  .ok (t * r.duration * Training.COEFF_MIN_TO_HOURS)

/-- `Training.show_training_info` with every Python division checked. -/
def show_training_infoE (r : Running) : Except String InfoMessage := do
  let d ← r.get_distanceE
  let v ← r.get_mean_speedE
  let c ← r.get_spent_caloriesE
  .ok ⟨"Running", r.duration, d, v, c⟩

end Running

namespace SportsWalking

/-- `Training.get_distance` with every Python division checked. -/
def get_distanceE (w : SportsWalking) : Except String ℚ :=
  cdiv (w.action * LEN_STEP) Training.M_IN_KM

/-- `Training.get_mean_speed` with every Python division checked. -/
def get_mean_speedE (w : SportsWalking) : Except String ℚ := do
  let d ← w.get_distanceE
  cdiv d w.duration

/-- `SportsWalking.get_spent_calories` with every Python division
(including the floor division by `height`) checked. -/
def get_spent_caloriesE (w : SportsWalking) : Except String ℚ := do
  let v ← w.get_mean_speedE
  let t ← cfloordiv (v ^ 2) w.height
  .ok ((WEIGHT_COEFFICIENT * w.weight + t * SPEED_WEIGHT_COEFFICIENT * w.weight)
    * w.duration * Training.COEFF_MIN_TO_HOURS)

/-- `Training.show_training_info` with every Python division checked. -/
def show_training_infoE (w : SportsWalking) : Except String InfoMessage := do
  let d ← w.get_distanceE
  let v ← w.get_mean_speedE
  let c ← w.get_spent_caloriesE
  .ok ⟨"SportsWalking", w.duration, d, v, c⟩

end SportsWalking

namespace Swimming

/-- `Training.get_distance` with every Python division checked. -/
def get_distanceE (s : Swimming) : Except String ℚ :=
  cdiv (s.action * LEN_STEP) Training.M_IN_KM

/-- `Swimming.get_mean_speed` with every Python division checked. -/
def get_mean_speedE (s : Swimming) : Except String ℚ := do
  let t ← cdiv (s.length_pool * s.count_pool) Training.M_IN_KM
  cdiv t s.duration

/-- `Swimming.get_spent_calories` with every Python division checked. -/
def get_spent_caloriesE (s : Swimming) : Except String ℚ := do
  let v ← s.get_mean_speedE
  .ok ((v + SPEED_ADD_COEFFICIENT) * SPEED_MULTIPLIER * s.weight)

/-- `Training.show_training_info` with every Python division checked. -/
def show_training_infoE (s : Swimming) : Except String InfoMessage := do
  let d ← s.get_distanceE
  let v ← s.get_mean_speedE
  let c ← s.get_spent_caloriesE
  .ok ⟨"Swimming", s.duration, d, v, c⟩

end Swimming

theorem string_append_assoc (a b c : String) : a ++ b ++ c = a ++ (b ++ c) :=
  congrArg String.mk (List.append_assoc a.data b.data c.data)

theorem digitChar_lt_ten : ∀ k < 10, (Nat.digitChar k).isDigit = true := by decide

theorem pad3_digits (m : Nat) : ∀ c ∈ (pad3 m).data, c.isDigit = true := by
  intro c hc
  have hd : (pad3 m).data = [Nat.digitChar (m / 100 % 10),
      Nat.digitChar (m / 10 % 10), Nat.digitChar (m % 10)] := rfl
  rw [hd] at hc
  simp only [List.mem_cons, List.not_mem_nil, or_false] at hc
  rcases hc with h | h | h <;>
    (rw [h]; exact digitChar_lt_ten _ (Nat.mod_lt _ (by norm_num)))

theorem pad3_length (m : Nat) : (pad3 m).length = 3 := rfl

theorem fmt3_threeDecimalFixed (q : ℚ) : threeDecimalFixed (fmt3 q) := by
  by_cases h : q < 0
  · refine ⟨"-" ++ natRepr ((roundHalfEven (q * 1000)).natAbs / 1000),
      pad3 ((roundHalfEven (q * 1000)).natAbs % 1000), ?_, pad3_length _, pad3_digits _⟩
    simp only [fmt3, fmt3Core, if_pos h, string_append_assoc]
  · exact ⟨natRepr ((roundHalfEven (q * 1000)).natAbs / 1000),
      pad3 ((roundHalfEven (q * 1000)).natAbs % 1000),
      by simp only [fmt3, fmt3Core, if_neg h], pad3_length _, pad3_digits _⟩

theorem fmt3_eq (q : ℚ) (n : ℤ) (hq : ¬ q < 0)
    (hn : roundHalfEven (q * 1000) = n) : fmt3 q = fmt3Core n := by
  simp only [fmt3, if_neg hq, hn]

theorem swimmingOfData_arity (data : List ℚ) (h : data.length ≠ 5) :
    swimmingOfData data = .error (.arityError 5 data.length) := by
  rcases data with _ | ⟨a, _ | ⟨b, _ | ⟨c, _ | ⟨d, _ | ⟨e, _ | ⟨f, rest⟩⟩⟩⟩⟩⟩
  · rfl
  · rfl
  · rfl
  · rfl
  · rfl
  · exact absurd rfl h
  · rfl

theorem runningOfData_arity (data : List ℚ) (h : data.length ≠ 3) :
    runningOfData data = .error (.arityError 3 data.length) := by
  rcases data with _ | ⟨a, _ | ⟨b, _ | ⟨c, _ | ⟨d, rest⟩⟩⟩⟩
  · rfl
  · rfl
  · rfl
  · exact absurd rfl h
  · rfl

theorem walkingOfData_arity (data : List ℚ) (h : data.length ≠ 4) :
    walkingOfData data = .error (.arityError 4 data.length) := by
  rcases data with _ | ⟨a, _ | ⟨b, _ | ⟨c, _ | ⟨d, _ | ⟨e, rest⟩⟩⟩⟩⟩
  · rfl
  · rfl
  · rfl
  · rfl
  · exact absurd rfl h
  · rfl

/-- C1: for every `SportsWalking` record with `height > 0` and
`duration > 0`, `get_spent_calories()` equals
`(0.035 * weight + floor(meanSpeed^2 / height) * 0.029 * weight) *
duration * 60`, where the quotient `meanSpeed^2 / height` is taken with
floor-division semantics and `meanSpeed = distance / duration` with
`distance = action * 0.65 / 1000`. -/
theorem sportsWalking_calories_spec (w : SportsWalking)
    (h1 : 0 < w.height) (h2 : 0 < w.duration) :
    w.get_spent_calories =
      (0.035 * w.weight
        + ((⌊(w.action * 0.65 / 1000 / w.duration) ^ 2 / w.height⌋ : ℤ) : ℚ)
          * 0.029 * w.weight) * w.duration * 60 := by
  simp only [SportsWalking.get_spent_calories, SportsWalking.get_mean_speed,
    SportsWalking.get_distance, SportsWalking.WEIGHT_COEFFICIENT,
    SportsWalking.SPEED_WEIGHT_COEFFICIENT, SportsWalking.LEN_STEP,
    Training.LEN_STEP, Training.M_IN_KM, Training.COEFF_MIN_TO_HOURS]

theorem sportsWalking_calories_spec_witness :
    (0 : ℚ) < 180 ∧ (0 : ℚ) < 1 ∧
    (SportsWalking.mk 9000 1 75 180).get_spent_calories =
      (0.035 * 75
        + ((⌊((9000 : ℚ) * 0.65 / 1000 / 1) ^ 2 / 180⌋ : ℤ) : ℚ)
          * 0.029 * 75) * 1 * 60 :=
  ⟨by norm_num, by norm_num,
    sportsWalking_calories_spec ⟨9000, 1, 75, 180⟩ (by norm_num) (by norm_num)⟩

/-- C2: for every `Running` record with `duration > 0`,
`get_spent_calories()` equals
`(18 * meanSpeed - 20) * weight / 1000 * duration * 60`, where
`meanSpeed = action * 0.65 / 1000 / duration`. -/
theorem running_calories_spec (r : Running) (h : 0 < r.duration) :
    r.get_spent_calories =
      (18 * (r.action * 0.65 / 1000 / r.duration) - 20) * r.weight / 1000
        * r.duration * 60 := by
  simp only [Running.get_spent_calories, Running.get_mean_speed,
    Running.get_distance, Running.SPEED_MULTIPLIER, Running.SPEED_SUBTRACTOR,
    Running.LEN_STEP, Training.LEN_STEP, Training.M_IN_KM,
    Training.COEFF_MIN_TO_HOURS]

theorem running_calories_spec_witness :
    (0 : ℚ) < 1 ∧
    (Running.mk 15000 1 75).get_spent_calories =
      (18 * ((15000 : ℚ) * 0.65 / 1000 / 1) - 20) * 75 / 1000 * 1 * 60 :=
  ⟨by norm_num, running_calories_spec ⟨15000, 1, 75⟩ (by norm_num)⟩

/-- C3: for every record with `duration > 0`: `Running` and
`SportsWalking` compute `get_mean_speed()` as
`get_distance() / duration`, while `Swimming` computes it as
`length_pool * count_pool / 1000 / duration`, independently of
`action`. -/
theorem mean_speed_spec (r : Running) (w : SportsWalking) (s : Swimming)
    (h1 : 0 < r.duration) (h2 : 0 < w.duration) (h3 : 0 < s.duration) :
    r.get_mean_speed = r.get_distance / r.duration ∧
    w.get_mean_speed = w.get_distance / w.duration ∧
    s.get_mean_speed = s.length_pool * s.count_pool / 1000 / s.duration ∧
    ∀ a : ℚ, ({ s with action := a } : Swimming).get_mean_speed = s.get_mean_speed := by
  refine ⟨rfl, rfl, ?_, fun a => rfl⟩
  simp only [Swimming.get_mean_speed, Training.M_IN_KM]

theorem mean_speed_spec_witness :
    (0 : ℚ) < 1 ∧
    (Running.mk 15000 1 75).get_mean_speed =
      (Running.mk 15000 1 75).get_distance / 1 ∧
    (SportsWalking.mk 9000 1 75 180).get_mean_speed =
      (SportsWalking.mk 9000 1 75 180).get_distance / 1 ∧
    (Swimming.mk 720 1 80 25 40).get_mean_speed = 25 * 40 / 1000 / 1 := by
  have h := mean_speed_spec ⟨15000, 1, 75⟩ ⟨9000, 1, 75, 180⟩ ⟨720, 1, 80, 25, 40⟩
    (by norm_num) (by norm_num) (by norm_num)
  exact ⟨by norm_num, h.1, h.2.1, h.2.2.1⟩

/-- C4: `get_message()` renders exactly the template
`Тип тренировки: ...; Длительность: ... ч.; Дистанция: ... км;
Ср. скорость: ... км/ч; Потрачено ккал: ... .` with each of the four
numeric fields in fixed-point notation with exactly three decimal
places. -/
theorem info_message_spec (m : InfoMessage) :
    m.get_message =
      "Тип тренировки: " ++ m.training_type ++
      "; Длительность: " ++ fmt3 m.duration ++
      " ч.; Дистанция: " ++ fmt3 m.distance ++
      " км; Ср. скорость: " ++ fmt3 m.speed ++
      " км/ч; Потрачено ккал: " ++ fmt3 m.calories ++ "." ∧
    threeDecimalFixed (fmt3 m.duration) ∧
    threeDecimalFixed (fmt3 m.distance) ∧
    threeDecimalFixed (fmt3 m.speed) ∧
    threeDecimalFixed (fmt3 m.calories) :=
  ⟨rfl, fmt3_threeDecimalFixed _, fmt3_threeDecimalFixed _,
    fmt3_threeDecimalFixed _, fmt3_threeDecimalFixed _⟩

/-- C5: the factory record for `"SWM"` with `[720, 1, 80, 25, 40]` has a
distance that renders to `0.994`, mean speed `1.0` and calories
`336.0`. -/
theorem swm_reference_scenario :
    read_package "SWM" [720, 1, 80, 25, 40] =
      .ok (.swimming ⟨720, 1, 80, 25, 40⟩) ∧
    fmt3 (TrainingRecord.get_distance (.swimming ⟨720, 1, 80, 25, 40⟩)) = "0.994" ∧
    TrainingRecord.get_mean_speed (.swimming ⟨720, 1, 80, 25, 40⟩) = 1 ∧
    TrainingRecord.get_spent_calories (.swimming ⟨720, 1, 80, 25, 40⟩) = 336 := by
  refine ⟨rfl, ?_, ?_, ?_⟩
  · have hd : TrainingRecord.get_distance (.swimming ⟨720, 1, 80, 25, 40⟩) = 621/625 := by
      norm_num [TrainingRecord.get_distance, Swimming.get_distance,
        Swimming.LEN_STEP, Training.M_IN_KM]
    have hr : roundHalfEven ((621/625 : ℚ) * 1000) = 994 := by
      have hf : ⌊((621/625 : ℚ) * 1000)⌋ = 993 := by norm_num
      simp only [roundHalfEven, hf]
      norm_num
    rw [hd, fmt3_eq _ 994 (by norm_num) hr]
    decide
  · norm_num [TrainingRecord.get_mean_speed, Swimming.get_mean_speed, Training.M_IN_KM]
  · norm_num [TrainingRecord.get_spent_calories, Swimming.get_spent_calories,
      Swimming.get_mean_speed, Swimming.SPEED_ADD_COEFFICIENT,
      Swimming.SPEED_MULTIPLIER, Training.M_IN_KM]

/-- C6 counterexample: the claimed calorie rendering `716.963` for the
`"RUN"` record `[15000, 1, 75]` is wrong: the code's formula yields
`699.75`, which renders to `699.750`. -/
theorem run_reference_counterexample :
    Running.get_spent_calories ⟨15000, 1, 75⟩ = 2799/4 ∧
    fmt3 (Running.get_spent_calories ⟨15000, 1, 75⟩) ≠ "716.963" := by
  have hc : Running.get_spent_calories ⟨15000, 1, 75⟩ = 2799/4 := by
    norm_num [Running.get_spent_calories, Running.get_mean_speed,
      Running.get_distance, Running.SPEED_MULTIPLIER, Running.SPEED_SUBTRACTOR,
      Running.LEN_STEP, Training.LEN_STEP, Training.M_IN_KM,
      Training.COEFF_MIN_TO_HOURS]
  have hr : roundHalfEven ((2799/4 : ℚ) * 1000) = 699750 := by
    have hf : ⌊((2799/4 : ℚ) * 1000)⌋ = 699750 := by norm_num
    simp only [roundHalfEven, hf]
    norm_num
  refine ⟨hc, ?_⟩
  rw [hc, fmt3_eq _ 699750 (by norm_num) hr]
  decide

/-- C6 amended: the factory record for `"RUN"` with `[15000, 1, 75]` has
distance `9.75`, mean speed `9.75`, and calories `699.75`, which renders
to `699.750` (not `716.963`). -/
theorem run_reference_scenario_amended :
    read_package "RUN" [15000, 1, 75] = .ok (.running ⟨15000, 1, 75⟩) ∧
    TrainingRecord.get_distance (.running ⟨15000, 1, 75⟩) = 9.75 ∧
    TrainingRecord.get_mean_speed (.running ⟨15000, 1, 75⟩) = 9.75 ∧
    TrainingRecord.get_spent_calories (.running ⟨15000, 1, 75⟩) = 699.75 ∧
    fmt3 (TrainingRecord.get_spent_calories (.running ⟨15000, 1, 75⟩)) = "699.750" := by
  have hc : TrainingRecord.get_spent_calories (.running ⟨15000, 1, 75⟩) = 2799/4 := by
    norm_num [TrainingRecord.get_spent_calories, Running.get_spent_calories,
      Running.get_mean_speed, Running.get_distance, Running.SPEED_MULTIPLIER,
      Running.SPEED_SUBTRACTOR, Running.LEN_STEP, Training.LEN_STEP,
      Training.M_IN_KM, Training.COEFF_MIN_TO_HOURS]
  have hr : roundHalfEven ((2799/4 : ℚ) * 1000) = 699750 := by
    have hf : ⌊((2799/4 : ℚ) * 1000)⌋ = 699750 := by norm_num
    simp only [roundHalfEven, hf]
    norm_num
  refine ⟨rfl, ?_, ?_, ?_, ?_⟩
  · norm_num [TrainingRecord.get_distance, Running.get_distance,
      Running.LEN_STEP, Training.LEN_STEP, Training.M_IN_KM]
  · norm_num [TrainingRecord.get_mean_speed, Running.get_mean_speed,
      Running.get_distance, Running.LEN_STEP, Training.LEN_STEP, Training.M_IN_KM]
  · rw [hc]; norm_num
  · rw [hc, fmt3_eq _ 699750 (by norm_num) hr]
    decide

/-- C7 counterexample: the claimed calorie rendering `141.710` for the
`"WLK"` record `[9000, 1, 75, 180]` is wrong: the floored term
`⌊5.85² / 180⌋` is `0`, so the code's formula yields `157.5`, which
renders to `157.500`. -/
theorem wlk_reference_counterexample :
    SportsWalking.get_spent_calories ⟨9000, 1, 75, 180⟩ = 315/2 ∧
    fmt3 (SportsWalking.get_spent_calories ⟨9000, 1, 75, 180⟩) ≠ "141.710" := by
  have hc : SportsWalking.get_spent_calories ⟨9000, 1, 75, 180⟩ = 315/2 := by
    norm_num [SportsWalking.get_spent_calories, SportsWalking.get_mean_speed,
      SportsWalking.get_distance, SportsWalking.WEIGHT_COEFFICIENT,
      SportsWalking.SPEED_WEIGHT_COEFFICIENT, SportsWalking.LEN_STEP,
      Training.LEN_STEP, Training.M_IN_KM, Training.COEFF_MIN_TO_HOURS]
  have hr : roundHalfEven ((315/2 : ℚ) * 1000) = 157500 := by
    have hf : ⌊((315/2 : ℚ) * 1000)⌋ = 157500 := by norm_num
    simp only [roundHalfEven, hf]
    norm_num
  refine ⟨hc, ?_⟩
  rw [hc, fmt3_eq _ 157500 (by norm_num) hr]
  decide

/-- C7 amended: the factory record for `"WLK"` with `[9000, 1, 75, 180]`
has distance `5.85`, mean speed `5.85`, and calories `157.5`, which
renders to `157.500` (not `141.710`). -/
theorem wlk_reference_scenario_amended :
    read_package "WLK" [9000, 1, 75, 180] = .ok (.walking ⟨9000, 1, 75, 180⟩) ∧
    TrainingRecord.get_distance (.walking ⟨9000, 1, 75, 180⟩) = 5.85 ∧
    TrainingRecord.get_mean_speed (.walking ⟨9000, 1, 75, 180⟩) = 5.85 ∧
    TrainingRecord.get_spent_calories (.walking ⟨9000, 1, 75, 180⟩) = 157.5 ∧
    fmt3 (TrainingRecord.get_spent_calories (.walking ⟨9000, 1, 75, 180⟩)) = "157.500" := by
  have hc : TrainingRecord.get_spent_calories (.walking ⟨9000, 1, 75, 180⟩) = 315/2 := by
    norm_num [TrainingRecord.get_spent_calories, SportsWalking.get_spent_calories,
      SportsWalking.get_mean_speed, SportsWalking.get_distance,
      SportsWalking.WEIGHT_COEFFICIENT, SportsWalking.SPEED_WEIGHT_COEFFICIENT,
      SportsWalking.LEN_STEP, Training.LEN_STEP, Training.M_IN_KM,
      Training.COEFF_MIN_TO_HOURS]
  have hr : roundHalfEven ((315/2 : ℚ) * 1000) = 157500 := by
    have hf : ⌊((315/2 : ℚ) * 1000)⌋ = 157500 := by norm_num
    simp only [roundHalfEven, hf]
    norm_num
  refine ⟨rfl, ?_, ?_, ?_, ?_⟩
  · norm_num [TrainingRecord.get_distance, SportsWalking.get_distance,
      SportsWalking.LEN_STEP, Training.LEN_STEP, Training.M_IN_KM]
  · norm_num [TrainingRecord.get_mean_speed, SportsWalking.get_mean_speed,
      SportsWalking.get_distance, SportsWalking.LEN_STEP, Training.LEN_STEP,
      Training.M_IN_KM]
  · rw [hc]; norm_num
  · rw [hc, fmt3_eq _ 157500 (by norm_num) hr]
    decide

/-- C8 counterexample: for the unrecognized code `"XYZ"` the factory
does raise the "workout type not found" `ValueError` before
constructing anything, but the error message is a fixed string that
does not identify the offending code: no character of `"XYZ"` even
occurs in it. -/
theorem unknown_code_counterexample :
    read_package "XYZ" [1, 1, 1] = .error (.unknownType ERROR_MESSAGE) ∧
    (∀ c ∈ ERROR_MESSAGE.data, c ∉ ("XYZ" : String).data) := by
  exact ⟨rfl, by decide⟩

/-- C8 amended: for every code outside `{"SWM", "RUN", "WLK"}` and every
data list, `read_package` raises the "workout type not found"
`ValueError` before constructing anything, with the fixed message
`ERROR_MESSAGE` that does not depend on (and does not identify) the
offending code. -/
theorem unknown_code_amended (workout_type : String) (data : List ℚ)
    (h : workout_type ∉ TRAINING_TYPES) :
    read_package workout_type data = .error (.unknownType ERROR_MESSAGE) := by
  simp only [read_package, if_pos h]

theorem unknown_code_amended_witness :
    read_package "XYZ" [1, 1, 1] = .error (.unknownType ERROR_MESSAGE) :=
  unknown_code_amended "XYZ" [1, 1, 1] (by decide)

/-- C9: for every recognized code, a data list whose length differs from
the resolved variant's `__init__` arity (5 for `"SWM"`, 3 for `"RUN"`,
4 for `"WLK"`) makes the factory fail at construction time with an
argument-count error, never returning a record. -/
theorem arity_error_spec (data : List ℚ) :
    (data.length ≠ 5 → read_package "SWM" data = .error (.arityError 5 data.length)) ∧
    (data.length ≠ 3 → read_package "RUN" data = .error (.arityError 3 data.length)) ∧
    (data.length ≠ 4 → read_package "WLK" data = .error (.arityError 4 data.length)) := by
  refine ⟨fun h => ?_, fun h => ?_, fun h => ?_⟩
  · exact swimmingOfData_arity data h
  · exact runningOfData_arity data h
  · exact walkingOfData_arity data h

theorem arity_error_spec_witness :
    read_package "RUN" [1, 1] = .error (.arityError 3 2) :=
  (arity_error_spec [1, 1]).2.1 (by decide)

/-- C10: constructing a record with `duration = 0` is not rejected, and
`get_mean_speed()` (hence `get_spent_calories()` and
`show_training_info()`) then hits an unguarded division by zero in all
three variants; under the precondition `duration ≠ 0` (plus
`height ≠ 0` for `SportsWalking`) every computation is total and yields
the pure values. -/
theorem division_by_zero_spec :
    (∀ r : Running, r.duration = 0 →
      r.get_mean_speedE = .error "ZeroDivisionError" ∧
      r.get_spent_caloriesE = .error "ZeroDivisionError" ∧
      r.show_training_infoE = .error "ZeroDivisionError") ∧
    (∀ w : SportsWalking, w.duration = 0 →
      w.get_mean_speedE = .error "ZeroDivisionError" ∧
      w.get_spent_caloriesE = .error "ZeroDivisionError" ∧
      w.show_training_infoE = .error "ZeroDivisionError") ∧
    (∀ s : Swimming, s.duration = 0 →
      s.get_mean_speedE = .error "ZeroDivisionError" ∧
      s.get_spent_caloriesE = .error "ZeroDivisionError" ∧
      s.show_training_infoE = .error "ZeroDivisionError") ∧
    (∀ r : Running, r.duration ≠ 0 →
      r.show_training_infoE = .ok r.show_training_info) ∧
    (∀ w : SportsWalking, w.duration ≠ 0 → w.height ≠ 0 →
      w.show_training_infoE = .ok w.show_training_info) ∧
    (∀ s : Swimming, s.duration ≠ 0 →
      s.show_training_infoE = .ok s.show_training_info) := by
  refine ⟨fun r h => ?_, fun w h => ?_, fun s h => ?_,
    fun r h => ?_, fun w h h2 => ?_, fun s h => ?_⟩
  · refine ⟨?_, ?_, ?_⟩ <;>
      norm_num [Running.get_mean_speedE, Running.get_spent_caloriesE,
        Running.show_training_infoE, Running.get_distanceE, cdiv,
        Training.M_IN_KM, h, Bind.bind, Except.bind]
  · refine ⟨?_, ?_, ?_⟩ <;>
      norm_num [SportsWalking.get_mean_speedE, SportsWalking.get_spent_caloriesE,
        SportsWalking.show_training_infoE, SportsWalking.get_distanceE, cdiv,
        Training.M_IN_KM, h, Bind.bind, Except.bind]
  · refine ⟨?_, ?_, ?_⟩ <;>
      norm_num [Swimming.get_mean_speedE, Swimming.get_spent_caloriesE,
        Swimming.show_training_infoE, Swimming.get_distanceE, cdiv,
        Training.M_IN_KM, h, Bind.bind, Except.bind]
  · norm_num [Running.show_training_infoE, Running.get_mean_speedE,
      Running.get_spent_caloriesE, Running.get_distanceE, cdiv, h,
      Training.M_IN_KM, Bind.bind, Except.bind,
      Running.show_training_info, Running.get_spent_calories,
      Running.get_mean_speed, Running.get_distance]
  · norm_num [SportsWalking.show_training_infoE, SportsWalking.get_mean_speedE,
      SportsWalking.get_spent_caloriesE, SportsWalking.get_distanceE, cdiv,
      cfloordiv, h, h2, Training.M_IN_KM, Bind.bind, Except.bind,
      SportsWalking.show_training_info, SportsWalking.get_spent_calories,
      SportsWalking.get_mean_speed, SportsWalking.get_distance]
  · norm_num [Swimming.show_training_infoE, Swimming.get_mean_speedE,
      Swimming.get_spent_caloriesE, Swimming.get_distanceE, cdiv, h,
      Training.M_IN_KM, Bind.bind, Except.bind,
      Swimming.show_training_info, Swimming.get_spent_calories,
      Swimming.get_mean_speed, Swimming.get_distance]

theorem division_by_zero_spec_witness :
    (Running.mk 15000 0 75).get_mean_speedE = .error "ZeroDivisionError" ∧
    (SportsWalking.mk 9000 0 75 180).get_mean_speedE = .error "ZeroDivisionError" ∧
    (Swimming.mk 720 0 80 25 40).get_mean_speedE = .error "ZeroDivisionError" ∧
    (Running.mk 15000 1 75).show_training_infoE =
      .ok (Running.show_training_info ⟨15000, 1, 75⟩) ∧
    (SportsWalking.mk 9000 1 75 180).show_training_infoE =
      .ok (SportsWalking.show_training_info ⟨9000, 1, 75, 180⟩) ∧
    (Swimming.mk 720 1 80 25 40).show_training_infoE =
      .ok (Swimming.show_training_info ⟨720, 1, 80, 25, 40⟩) :=
  ⟨(division_by_zero_spec.1 ⟨15000, 0, 75⟩ rfl).1,
    (division_by_zero_spec.2.1 ⟨9000, 0, 75, 180⟩ rfl).1,
    (division_by_zero_spec.2.2.1 ⟨720, 0, 80, 25, 40⟩ rfl).1,
    division_by_zero_spec.2.2.2.1 ⟨15000, 1, 75⟩ (by norm_num),
    division_by_zero_spec.2.2.2.2.1 ⟨9000, 1, 75, 180⟩ (by norm_num) (by norm_num),
    division_by_zero_spec.2.2.2.2.2 ⟨720, 1, 80, 25, 40⟩ (by norm_num)⟩

end HwPythonOop
